import Mathlib

/-!
Shallow embedding of the Menu → SubMenu → Dish REST API
(`main.py`, synchronous variant; `main_asyncio.py`, asynchronous variant).

The database is modelled as three lists of rows (insertion order = list
order).  SQLAlchemy's `query(...)​.first()` becomes `List.find?`, mutation of
the ORM object returned by `first()` becomes replacement of the first
matching row, `db.delete` of that object becomes erasure of the first
matching row, and `offset(skip).limit(limit)` becomes `drop`/`take`.
The async variant's `scalar_one_or_none()` differs from `first()`: it
raises `MultipleResultsFound` when more than one row matches, modelled as
a generic server error.

Prices are Python `Decimal` values (per the data model: a decimal column),
modelled as a coefficient/scale pair; `round(d, 2)` is `Decimal` quantization
to two fractional digits with half-even rounding, and `str` renders the
coefficient with the decimal point placed by the scale.
-/

set_option autoImplicit false
set_option linter.unusedVariables false

namespace RestApi

/-- Modelled from the spec: the Dish price type.  `models.py` and
`schemas/dish.py` are not part of the sources; §3 declares price a
decimal ("price (decimal, 2 fractional digits)") and §8 fixes Decimal
semantics ("19.999 … echoed as \"20.00\" on creation … \"19.999\" on
update"), so a price is a Python `Decimal`: an integer coefficient with a
fractional-digit count (scale).  Storage passes the value through
unchanged, as §8's update behaviour requires. -/
structure Dec where
  coeff : Int
  scale : Nat
deriving Repr, DecidableEq

/-- Quotient of `n / m` rounded half-to-even (banker's rounding), the
rounding mode of Python `Decimal` quantization. -/
def halfEvenDivNat (n m : Nat) : Nat :=
  let q := n / m
  let r := n % m
  if 2 * r < m then q
  else if m < 2 * r then q + 1
  else if q % 2 = 0 then q else q + 1

/-- Python `round(d, 2)` on a `Decimal`: quantize to exactly two
fractional digits, padding with zeros or rounding half-to-even by
magnitude. -/
def Dec.round2 (d : Dec) : Dec :=
  if d.scale ≤ 2 then ⟨d.coeff * (10 : Int) ^ (2 - d.scale), 2⟩
  else
    let m := 10 ^ (d.scale - 2)
    let q := halfEvenDivNat d.coeff.natAbs m
    ⟨if d.coeff < 0 then -(q : Int) else (q : Int), 2⟩

/-- Python `str` on a `Decimal`: the coefficient's digits with a decimal
point before the last `scale` digits (no point when the scale is zero),
zero-padded so at least one digit precedes the point. -/
def Dec.str (d : Dec) : String :=
  let sign := if d.coeff < 0 then "-" else ""
  if d.scale = 0 then sign ++ String.mk (Nat.toDigits 10 d.coeff.natAbs)
  else
    let ds := Nat.toDigits 10 d.coeff.natAbs
    let ds := if ds.length < d.scale + 1
      then List.replicate (d.scale + 1 - ds.length) '0' ++ ds else ds
    sign ++ String.mk (ds.take (ds.length - d.scale)) ++ "." ++
      String.mk (ds.drop (ds.length - d.scale))

/-- A row of the `Menu` table. -/
structure MenuRow where
  id : String
  title : String
  description : String
deriving Repr, DecidableEq

/-- A row of the `SubMenu` table (`menu_id` is the foreign key to `Menu`). -/
structure SubMenuRow where
  id : String
  menu_id : String
  title : String
  description : String
deriving Repr, DecidableEq

/-- A row of the `Dish` table (`submenu_id` is the foreign key to `SubMenu`). -/
structure DishRow where
  id : String
  submenu_id : String
  title : String
  description : String
  price : Dec
deriving Repr, DecidableEq

/-- The database state: the three tables, rows in insertion order. -/
structure DB where
  menus : List MenuRow
  submenus : List SubMenuRow
  dishes : List DishRow
deriving Repr, DecidableEq

/-- Request body for Menu create/update (`MenuSchemaAdd`/`MenuSchemaUpdate`). -/
structure MenuIn where
  title : String
  description : String
deriving Repr, DecidableEq

/-- Request body for SubMenu create/update. -/
structure SubMenuIn where
  title : String
  description : String
deriving Repr, DecidableEq

/-- Request body for Dish create/update (price included). -/
structure DishIn where
  title : String
  description : String
  price : Dec
deriving Repr, DecidableEq

/-- JSON body `{id, title, description}` of a Menu response. -/
structure MenuBody where
  id : String
  title : String
  description : String
deriving Repr, DecidableEq

/-- JSON body of a Menu read response, with the two aggregate counts. -/
structure MenuFullBody where
  id : String
  title : String
  description : String
  submenus_count : Int
  dishes_count : Int
deriving Repr, DecidableEq

/-- JSON body `{id, title, description}` of a SubMenu response. -/
structure SubMenuBody where
  id : String
  title : String
  description : String
deriving Repr, DecidableEq

/-- JSON body of a SubMenu read response, with its dish count. -/
structure SubMenuFullBody where
  id : String
  title : String
  description : String
  dishes_count : Int
deriving Repr, DecidableEq

/-- JSON body of a Dish response; the price is already serialized to a
string, exactly as the handlers do (`str(round(price, 2))` or `str(price)`). -/
structure DishBody where
  id : String
  title : String
  description : String
  price : String
deriving Repr, DecidableEq

/-- The JSON content a handler can put in a `JSONResponse`. -/
inductive Body where
  | menu (b : MenuBody)
  | menuFull (b : MenuFullBody)
  | menuList (bs : List MenuFullBody)
  | submenu (b : SubMenuBody)
  | submenuFull (b : SubMenuFullBody)
  | submenuList (bs : List SubMenuFullBody)
  | dish (b : DishBody)
  | dishList (bs : List DishBody)
  | empty
deriving Repr, DecidableEq

/-- Observable outcome of one handler invocation:
`ok` is a `JSONResponse(status_code, content)`; `httpError` is a raised
`HTTPException(status_code, detail)`; `fellThrough` is a Python handler
that reaches its end without returning (returns `None` — the "no
response" defect class of §9); `serverError` is an uncaught exception
(e.g. `MultipleResultsFound` from `scalar_one_or_none`), mapped by the
framework to a generic error. -/
inductive Resp where
  | ok (status : Nat) (body : Body)
  | httpError (status : Nat) (detail : String)
  | fellThrough
  | serverError (msg : String)
deriving Repr, DecidableEq

/-- Replace the first element satisfying `p` by its image under `f`
(mutation of the single ORM object returned by `query(...).first()`). -/
def updateFirst {α : Type} (p : α → Bool) (f : α → α) : List α → List α
  | [] => []
  | x :: xs => if p x then f x :: xs else x :: updateFirst p f xs

/-- `SELECT count(SubMenu.id) WHERE SubMenu.menu_id == menu_id`. -/
def submenusCount (db : DB) (menu_id : String) : Nat :=
  (db.submenus.filter (fun s => s.menu_id == menu_id)).length

/-- `SELECT count(Dish.id) FROM Dish JOIN SubMenu ON Dish.submenu_id ==
SubMenu.id WHERE SubMenu.menu_id == menu_id`: the number of (dish,
submenu) join pairs under the menu — used directly by `read_menus`. -/
def dishesJoinCount (db : DB) (menu_id : String) : Nat :=
  (db.dishes.map (fun d =>
    (db.submenus.filter
      (fun s => d.submenu_id == s.id && s.menu_id == menu_id)).length)).sum

/-- `read_one_menu`'s dish count: `func.sum` over the one-row subquery
that computes `dishesJoinCount`. -/
def dishesSumCount (db : DB) (menu_id : String) : Nat :=
  ([dishesJoinCount db menu_id]).sum

/-- `SELECT count(Dish.id) WHERE Dish.submenu_id == submenu_id`. -/
def dishesCountOf (db : DB) (submenu_id : String) : Nat :=
  (db.dishes.filter (fun d => d.submenu_id == submenu_id)).length

/-! ## Synchronous handlers (`main.py`) -/

/-- `POST /api/v1/menus/` — inserts a row and answers 201 with the new
record.  The server-generated id is passed in as `newId`. -/
def create_menu (newId : String) (menu_data : MenuIn) (db : DB) : Resp × DB :=
  let new_menu : MenuRow := ⟨newId, menu_data.title, menu_data.description⟩
  (Resp.ok 201 (Body.menu ⟨new_menu.id, new_menu.title, new_menu.description⟩),
   { db with menus := db.menus ++ [new_menu] })

/-- `GET /api/v1/menus/` — pages the Menu table and annotates each row
with `submenus_count` and the joined `dishes_count`. -/
def read_menus (skip limit : Nat) (db : DB) : Resp × DB :=
  let menus := (db.menus.drop skip).take limit
  (Resp.ok 200 (Body.menuList (menus.map (fun menu =>
    ⟨menu.id, menu.title, menu.description,
     (submenusCount db menu.id : Int), (dishesJoinCount db menu.id : Int)⟩))),
   db)

/-- `GET /api/v1/menus/{menu_id}` — 404 when absent, otherwise the record
with both counts (`dishes_count` via the `sum`-wrapped subquery). -/
def read_one_menu (menu_id : String) (db : DB) : Resp × DB :=
  match db.menus.find? (fun m => m.id == menu_id) with
  | none => (Resp.httpError 404 "menu not found", db)
  | some menu =>
    (Resp.ok 200 (Body.menuFull
      ⟨menu.id, menu.title, menu.description,
       (submenusCount db menu_id : Int), (dishesSumCount db menu_id : Int)⟩),
     db)

/-- `PATCH /api/v1/menus/{menu_id}` — overwrites title/description of the
first matching row and answers 200; falls through (no response) when the
id is absent. -/
def update_menu (menu_id : String) (menu_data : MenuIn) (db : DB) : Resp × DB :=
  match db.menus.find? (fun m => m.id == menu_id) with
  | some m =>
    let menus := updateFirst (fun r => r.id == menu_id)
      (fun r => { r with title := menu_data.title,
                         description := menu_data.description }) db.menus
    (Resp.ok 200 (Body.menu ⟨m.id, menu_data.title, menu_data.description⟩),
     { db with menus := menus })
  | none => (Resp.fellThrough, db)

/-- `DELETE /api/v1/menus/{menu_id}` — erases the first matching row and
answers 200 `{}`; falls through when the id is absent. -/
def delete_menu (menu_id : String) (db : DB) : Resp × DB :=
  match db.menus.find? (fun m => m.id == menu_id) with
  | some _ =>
    (Resp.ok 200 Body.empty,
     { db with menus := db.menus.eraseP (fun m => m.id == menu_id) })
  | none => (Resp.fellThrough, db)

/-- `POST /api/v1/menus/{menu_id}/submenus` — 404 when the menu is
absent; 400 when a SubMenu with the same title exists under a different
`menu_id`; otherwise inserts the row bound to `menu_id`. -/
def create_submenu_for_menu (menu_id newId : String) (submenu_data : SubMenuIn)
    (db : DB) : Resp × DB :=
  match db.menus.find? (fun m => m.id == menu_id) with
  | none => (Resp.httpError 404 "menu not found", db)
  | some _ =>
    match db.submenus.find?
        (fun s => s.menu_id != menu_id && s.title == submenu_data.title) with
    | some _ =>
      (Resp.httpError 400 "Submenu already belongs to ather menu", db)
    | none =>
      (Resp.ok 201 (Body.submenu
        ⟨newId, submenu_data.title, submenu_data.description⟩),
       { db with submenus := db.submenus ++
          [⟨newId, menu_id, submenu_data.title, submenu_data.description⟩] })

/-- `GET /api/v1/menus/{menu_id}/submenus` — pages the submenus of the
menu, each annotated with its dish count. -/
def read_submenus_for_menu (menu_id : String) (skip limit : Nat) (db : DB) :
    Resp × DB :=
  let submenus :=
    ((db.submenus.filter (fun s => s.menu_id == menu_id)).drop skip).take limit
  (Resp.ok 200 (Body.submenuList (submenus.map (fun s =>
    ⟨s.id, s.title, s.description, (dishesCountOf db s.id : Int)⟩))),
   db)

/-- `GET /api/v1/menus/{menu_id}/submenus/{submenu_id}` — 404 when no
SubMenu matches both ids, otherwise the record with its dish count. -/
def read_one_submenu_for_menu (menu_id submenu_id : String) (db : DB) :
    Resp × DB :=
  match db.submenus.find?
      (fun s => s.menu_id == menu_id && s.id == submenu_id) with
  | none => (Resp.httpError 404 "submenu not found", db)
  | some submenu =>
    (Resp.ok 200 (Body.submenuFull
      ⟨submenu.id, submenu.title, submenu.description,
       (dishesCountOf db submenu_id : Int)⟩),
     db)

/-- `PATCH .../submenus/{submenu_id}` — overwrites the first matching
row; falls through when no row matches. -/
def update_submenu (menu_id submenu_id : String) (submenu_data : SubMenuIn)
    (db : DB) : Resp × DB :=
  match db.submenus.find?
      (fun s => s.menu_id == menu_id && s.id == submenu_id) with
  | some s =>
    let submenus :=
      updateFirst (fun r => r.menu_id == menu_id && r.id == submenu_id)
        (fun r => { r with title := submenu_data.title,
                           description := submenu_data.description })
        db.submenus
    (Resp.ok 200 (Body.submenu
      ⟨s.id, submenu_data.title, submenu_data.description⟩),
     { db with submenus := submenus })
  | none => (Resp.fellThrough, db)

/-- `DELETE .../submenus/{submenu_id}` — erases the first matching row;
falls through when no row matches. -/
def delete_submenu (menu_id submenu_id : String) (db : DB) : Resp × DB :=
  match db.submenus.find?
      (fun s => s.menu_id == menu_id && s.id == submenu_id) with
  | some _ =>
    let submenus :=
      db.submenus.eraseP (fun s => s.menu_id == menu_id && s.id == submenu_id)
    (Resp.ok 200 Body.empty, { db with submenus := submenus })
  | none => (Resp.fellThrough, db)

/-- `POST .../submenus/{submenu_id}/dishes` — 404 when no SubMenu matches
both path ids; 400 when a Dish with the same title exists under a
different `submenu_id`; otherwise inserts the dish bound to `submenu_id`,
echoing the price rounded to two decimals. -/
def create_dish_for_submenu (menu_id submenu_id newId : String)
    (dish_data : DishIn) (db : DB) : Resp × DB :=
  match db.submenus.find?
      (fun s => s.menu_id == menu_id && s.id == submenu_id) with
  | none => (Resp.httpError 404 "Submenu not found", db)
  | some _ =>
    match db.dishes.find?
        (fun d => d.submenu_id != submenu_id && d.title == dish_data.title) with
    | some _ =>
      (Resp.httpError 400 "Dish already belongs to ather submenu", db)
    | none =>
      (Resp.ok 201 (Body.dish
        ⟨newId, dish_data.title, dish_data.description,
         (Dec.round2 dish_data.price).str⟩),
       { db with dishes := db.dishes ++
          [⟨newId, submenu_id, dish_data.title, dish_data.description,
            dish_data.price⟩] })

/-- `GET .../dishes` — pages the dishes of the submenu (the `menu_id`
path parameter is not filtered on), prices rounded to two decimals. -/
def read_dish_for_submenu (menu_id submenu_id : String) (skip limit : Nat)
    (db : DB) : Resp × DB :=
  let dishes :=
    ((db.dishes.filter (fun d => d.submenu_id == submenu_id)).drop skip).take
      limit
  (Resp.ok 200 (Body.dishList (dishes.map (fun d =>
    ⟨d.id, d.title, d.description, (Dec.round2 d.price).str⟩))),
   db)

/-- `GET .../dishes/{dish_id}` — 404 when no dish matches both ids,
otherwise the record with the price rounded to two decimals.  (The source
reuses the Python name `read_dish_for_submenu` for this second handler.) -/
def read_one_dish_for_submenu (menu_id submenu_id dish_id : String) (db : DB) :
    Resp × DB :=
  match db.dishes.find?
      (fun d => d.id == dish_id && d.submenu_id == submenu_id) with
  | none => (Resp.httpError 404 "dish not found", db)
  | some dish =>
    (Resp.ok 200 (Body.dish
      ⟨dish.id, dish.title, dish.description, (Dec.round2 dish.price).str⟩),
     db)

/-- `PATCH .../dishes/{dish_id}` — overwrites title/description/price of
the first matching row, echoing the price UNROUNDED (`str(price)`); falls
through when no row matches. -/
def update_dish (menu_id submenu_id dish_id : String) (dish_data : DishIn)
    (db : DB) : Resp × DB :=
  match db.dishes.find?
      (fun d => d.submenu_id == submenu_id && d.id == dish_id) with
  | some d =>
    let dishes :=
      updateFirst (fun r => r.submenu_id == submenu_id && r.id == dish_id)
        (fun r => { r with title := dish_data.title,
                           description := dish_data.description,
                           price := dish_data.price })
        db.dishes
    (Resp.ok 200 (Body.dish
      ⟨d.id, dish_data.title, dish_data.description, dish_data.price.str⟩),
     { db with dishes := dishes })
  | none => (Resp.fellThrough, db)

/-- `DELETE .../dishes/{dish_id}` — erases the first matching row; falls
through when no row matches.  (The source misnames this Python function
`delete_menu`; the async variant calls it `delete_dish`.) -/
def delete_dish (menu_id submenu_id dish_id : String) (db : DB) : Resp × DB :=
  match db.dishes.find?
      (fun d => d.submenu_id == submenu_id && d.id == dish_id) with
  | some _ =>
    let dishes :=
      db.dishes.eraseP (fun d => d.submenu_id == submenu_id && d.id == dish_id)
    (Resp.ok 200 Body.empty, { db with dishes := dishes })
  | none => (Resp.fellThrough, db)

/-! ## Asynchronous handlers (`main_asyncio.py`, the ones the claims need) -/

/-- SQLAlchemy `Result.scalar_one_or_none()`: `some none` when no row
matches, `some (some x)` for a unique match, `none` when several rows
match (`MultipleResultsFound` is raised). -/
def scalar_one_or_none {α : Type} (p : α → Bool) (l : List α) :
    Option (Option α) :=
  match l.filter p with
  | [] => some none
  | [x] => some (some x)
  | _ => none

/-- Async `PATCH /api/v1/menus/{menu_id}`: unlike the sync variant it
raises 404 when the menu is absent. -/
def async_update_menu (menu_id : String) (menu_data : MenuIn) (db : DB) :
    Resp × DB :=
  match scalar_one_or_none (fun m => m.id == menu_id) db.menus with
  | none => (Resp.serverError "MultipleResultsFound", db)
  | some none => (Resp.httpError 404 "menu not found", db)
  | some (some m) =>
    let menus := updateFirst (fun r => r.id == menu_id)
      (fun r => { r with title := menu_data.title,
                         description := menu_data.description }) db.menus
    (Resp.ok 200 (Body.menu ⟨m.id, menu_data.title, menu_data.description⟩),
     { db with menus := menus })

/-- Async `DELETE /api/v1/menus/{menu_id}`: unlike the sync variant it
raises 404 when the menu is absent. -/
def async_delete_menu (menu_id : String) (db : DB) : Resp × DB :=
  match scalar_one_or_none (fun m => m.id == menu_id) db.menus with
  | none => (Resp.serverError "MultipleResultsFound", db)
  | some none => (Resp.httpError 404 "menu not found", db)
  | some (some _) =>
    (Resp.ok 200 Body.empty,
     { db with menus := db.menus.eraseP (fun m => m.id == menu_id) })

/-- Async `POST /api/v1/menus/{menu_id}/submenus`: same checks as the
sync variant, but via `scalar_one_or_none`. -/
def async_create_submenu_for_menu (menu_id newId : String)
    (submenu_data : SubMenuIn) (db : DB) : Resp × DB :=
  match scalar_one_or_none (fun m => m.id == menu_id) db.menus with
  | none => (Resp.serverError "MultipleResultsFound", db)
  | some none => (Resp.httpError 404 "menu not found", db)
  | some (some _) =>
    match scalar_one_or_none
        (fun s => s.menu_id != menu_id && s.title == submenu_data.title)
        db.submenus with
    | none => (Resp.serverError "MultipleResultsFound", db)
    | some (some _) =>
      (Resp.httpError 400 "Submenu already belongs to ather menu", db)
    | some none =>
      (Resp.ok 201 (Body.submenu
        ⟨newId, submenu_data.title, submenu_data.description⟩),
       { db with submenus := db.submenus ++
          [⟨newId, menu_id, submenu_data.title, submenu_data.description⟩] })

/-- Async `POST .../submenus/{submenu_id}/dishes`: same checks as the
sync variant — 404 when no SubMenu matches both path ids, 400 when a
Dish with the same title exists under a different `submenu_id`,
otherwise the insert bound to `submenu_id` with the price echoed rounded
— but via `scalar_one_or_none`. -/
def async_create_dish_for_submenu (menu_id submenu_id newId : String)
    (dish_data : DishIn) (db : DB) : Resp × DB :=
  match scalar_one_or_none
      (fun s => s.menu_id == menu_id && s.id == submenu_id) db.submenus with
  | none => (Resp.serverError "MultipleResultsFound", db)
  | some none => (Resp.httpError 404 "Submenu not found", db)
  | some (some _) =>
    match scalar_one_or_none
        (fun d => d.submenu_id != submenu_id && d.title == dish_data.title)
        db.dishes with
    | none => (Resp.serverError "MultipleResultsFound", db)
    | some (some _) =>
      (Resp.httpError 400 "Dish already belongs to ather submenu", db)
    | some none =>
      (Resp.ok 201 (Body.dish
        ⟨newId, dish_data.title, dish_data.description,
         (Dec.round2 dish_data.price).str⟩),
       { db with dishes := db.dishes ++
          [⟨newId, submenu_id, dish_data.title, dish_data.description,
            dish_data.price⟩] })

/-- Iterated Dish creation: feed each (server-generated id, request body)
pair to `create_dish_for_submenu` in order, threading the database state
(the scenario of §8: "After creating N Dishes under a SubMenu ..."). -/
def create_dishes (menu_id submenu_id : String)
    (inputs : List (String × DishIn)) (db : DB) : DB :=
  inputs.foldl
    (fun acc i => (create_dish_for_submenu menu_id submenu_id i.1 i.2 acc).2)
    db

/-! ## Helper lemmas about the list-level query operations -/

theorem updateFirst_find? {α : Type} (p : α → Bool) (f : α → α)
    (hpf : ∀ a, p (f a) = p a) (l : List α) (a : α)
    (h : l.find? p = some a) :
    (updateFirst p f l).find? p = some (f a) := by
  induction l with
  | nil => simp at h
  | cons x xs ih =>
    by_cases hx : p x = true
    · rw [List.find?_cons_of_pos _ hx] at h
      obtain rfl : x = a := by injection h
      simp only [updateFirst, hx, if_true]
      exact List.find?_cons_of_pos _ (by rw [hpf]; exact hx)
    · rw [List.find?_cons_of_neg _ hx] at h
      simp only [updateFirst, hx, if_false, Bool.false_eq_true]
      rw [List.find?_cons_of_neg _ hx]
      exact ih h

theorem find?_eraseP_key {α : Type} (k : α → String) (c : String)
    (l : List α) (hnd : (l.map k).Nodup) :
    (l.eraseP (fun a => k a == c)).find? (fun a => k a == c) = none := by
  induction l with
  | nil => rfl
  | cons x xs ih =>
    rw [List.map_cons, List.nodup_cons] at hnd
    by_cases hx : (k x == c) = true
    · rw [List.eraseP_cons_of_pos (p := fun a => k a == c) hx,
        List.find?_eq_none]
      intro y hy hpy
      refine hnd.1 (List.mem_map.mpr ⟨y, hy, ?_⟩)
      rw [beq_iff_eq] at hx hpy
      rw [hpy, hx]
    · rw [List.eraseP_cons_of_neg (p := fun a => k a == c) hx,
        List.find?_cons_of_neg (p := fun a => k a == c) _ hx]
      exact ih hnd.2

theorem filter_eq_singleton_key {α : Type} (k : α → String) (c : String)
    (l : List α) (hnd : (l.map k).Nodup) (a : α)
    (h : l.find? (fun x => k x == c) = some a) :
    l.filter (fun x => k x == c) = [a] := by
  induction l with
  | nil => simp at h
  | cons x xs ih =>
    rw [List.map_cons, List.nodup_cons] at hnd
    by_cases hx : (k x == c) = true
    · rw [List.find?_cons_of_pos (p := fun x => k x == c) _ hx] at h
      obtain rfl : x = a := by injection h
      rw [List.filter_cons_of_pos (p := fun x => k x == c) hx]
      have he : xs.filter (fun x => k x == c) = [] := by
        rw [List.filter_eq_nil_iff]
        intro y hy hpy
        refine hnd.1 (List.mem_map.mpr ⟨y, hy, ?_⟩)
        rw [beq_iff_eq] at hx hpy
        rw [hpy, hx]
      rw [he]
    · rw [List.find?_cons_of_neg (p := fun x => k x == c) _ hx] at h
      rw [List.filter_cons_of_neg (p := fun x => k x == c) hx]
      exact ih hnd.2 h

theorem scalar_eq_find? {α : Type} (k : α → String) (c : String)
    (l : List α) (hnd : (l.map k).Nodup) :
    scalar_one_or_none (fun a => k a == c) l =
      some (l.find? (fun a => k a == c)) := by
  cases hf : l.find? (fun a => k a == c) with
  | none =>
    have he : l.filter (fun a => k a == c) = [] := by
      rw [List.filter_eq_nil_iff]
      exact List.find?_eq_none.mp hf
    simp [scalar_one_or_none, he]
  | some a =>
    have he := filter_eq_singleton_key k c l hnd a hf
    simp [scalar_one_or_none, he]

theorem find?_eraseP_decomp {α : Type} (p : α → Bool) (l : List α) (a : α)
    (h : l.find? p = some a) :
    ∃ l1 l2, l = l1 ++ a :: l2 ∧ l.eraseP p = l1 ++ l2 := by
  induction l with
  | nil => simp at h
  | cons x xs ih =>
    by_cases hx : p x = true
    · rw [List.find?_cons_of_pos _ hx] at h
      obtain rfl : x = a := by injection h
      exact ⟨[], xs, by simp, by rw [List.eraseP_cons_of_pos hx]; simp⟩
    · rw [List.find?_cons_of_neg _ hx] at h
      obtain ⟨l1, l2, he, hr⟩ := ih h
      exact ⟨x :: l1, l2, by rw [he]; simp,
        by rw [List.eraseP_cons_of_neg hx, hr]; simp⟩

theorem length_le_sum_map {α : Type} (w : α → Nat) (l : List α)
    (h : ∀ a ∈ l, 1 ≤ w a) : l.length ≤ (l.map w).sum := by
  induction l with
  | nil => simp
  | cons x xs ih =>
    simp only [List.length_cons, List.map_cons, List.sum_cons]
    have h1 := h x (List.mem_cons_self x xs)
    have h2 := ih (fun a ha => h a (List.mem_cons_of_mem _ ha))
    omega

theorem create_dishes_state (menu_id submenu_id : String)
    (inputs : List (String × DishIn)) (db : DB)
    (hsm : (db.submenus.find?
      (fun s => s.menu_id == menu_id && s.id == submenu_id)).isSome)
    (hnc : ∀ i ∈ inputs, ∀ x ∈ db.dishes,
      ¬(x.submenu_id ≠ submenu_id ∧ x.title = i.2.title)) :
    create_dishes menu_id submenu_id inputs db =
      { db with dishes := db.dishes ++ inputs.map (fun i =>
          ⟨i.1, submenu_id, i.2.title, i.2.description, i.2.price⟩) } := by
  induction inputs generalizing db with
  | nil => simp [create_dishes]
  | cons i rest ih =>
    obtain ⟨s, hs⟩ := Option.isSome_iff_exists.mp hsm
    have h2 : db.dishes.find?
        (fun x => x.submenu_id != submenu_id && x.title == i.2.title) =
          none := by
      rw [List.find?_eq_none]
      intro x hx hp
      rw [Bool.and_eq_true, bne_iff_ne, beq_iff_eq] at hp
      exact hnc i (List.mem_cons_self _ _) x hx hp
    have hstep : (create_dish_for_submenu menu_id submenu_id i.1 i.2 db).2 =
        { db with dishes := db.dishes ++
            [⟨i.1, submenu_id, i.2.title, i.2.description, i.2.price⟩] } := by
      simp [create_dish_for_submenu, hs, h2]
    have hfold : create_dishes menu_id submenu_id (i :: rest) db =
        create_dishes menu_id submenu_id rest
          (create_dish_for_submenu menu_id submenu_id i.1 i.2 db).2 := rfl
    have hnc1 : ∀ j ∈ rest, ∀ x ∈ db.dishes ++
        [(⟨i.1, submenu_id, i.2.title, i.2.description, i.2.price⟩ :
          DishRow)],
        ¬(x.submenu_id ≠ submenu_id ∧ x.title = j.2.title) := by
      intro j hj x hx
      rw [List.mem_append] at hx
      cases hx with
      | inl hin => exact hnc j (List.mem_cons_of_mem _ hj) x hin
      | inr hin =>
        rw [List.mem_singleton] at hin
        subst hin
        rintro ⟨hne, _⟩
        exact hne rfl
    rw [hfold, hstep]
    rw [ih { db with dishes := db.dishes ++
        [⟨i.1, submenu_id, i.2.title, i.2.description, i.2.price⟩] }
      hsm hnc1]
    simp [List.append_assoc]

/-! ## The claims -/

/-- C9: for every database state and every menu id, the dish count used
by the Menu read-one handler (`func.sum` over the one-row joined-count
subquery) equals the joined count used by the Menu list handler. -/
theorem C9_dishes_count_formulas_agree (db : DB) (menu_id : String) :
    dishesSumCount db menu_id = dishesJoinCount db menu_id := by
  simp [dishesSumCount]

/-- C8: each list operation with `skip = 0`, `limit = 10` renders a page
of at most 10 records, and the page is an in-order sublist of the table
(insertion order), filtered to the parent scope for submenus/dishes. -/
theorem C8_listing_bounded_and_in_order (db : DB)
    (menu_id submenu_id : String) :
    (∃ page : List MenuRow,
      read_menus 0 10 db = (Resp.ok 200 (Body.menuList (page.map (fun m =>
        ⟨m.id, m.title, m.description, (submenusCount db m.id : Int),
         (dishesJoinCount db m.id : Int)⟩))), db) ∧
      page.length ≤ 10 ∧ page.Sublist db.menus) ∧
    (∃ page : List SubMenuRow,
      read_submenus_for_menu menu_id 0 10 db =
        (Resp.ok 200 (Body.submenuList (page.map (fun s =>
          ⟨s.id, s.title, s.description, (dishesCountOf db s.id : Int)⟩))),
         db) ∧
      page.length ≤ 10 ∧ page.Sublist db.submenus ∧
      ∀ s ∈ page, s.menu_id = menu_id) ∧
    (∃ page : List DishRow,
      read_dish_for_submenu menu_id submenu_id 0 10 db =
        (Resp.ok 200 (Body.dishList (page.map (fun d =>
          ⟨d.id, d.title, d.description, (Dec.round2 d.price).str⟩))), db) ∧
      page.length ≤ 10 ∧ page.Sublist db.dishes ∧
      ∀ d ∈ page, d.submenu_id = submenu_id) := by
  refine ⟨⟨(db.menus.drop 0).take 10, rfl, List.length_take_le _ _, ?_⟩,
    ⟨((db.submenus.filter
        (fun (s : SubMenuRow) => s.menu_id == menu_id)).drop 0).take 10,
      rfl, List.length_take_le _ _, ?_, ?_⟩,
    ⟨((db.dishes.filter
        (fun (d : DishRow) => d.submenu_id == submenu_id)).drop 0).take 10,
      rfl, List.length_take_le _ _, ?_, ?_⟩⟩
  · rw [List.drop_zero]; exact List.take_sublist _ _
  · rw [List.drop_zero]
    exact (List.take_sublist _ _).trans (List.filter_sublist _)
  · intro s hs
    have hm := (List.take_sublist _ _).subset hs
    rw [List.drop_zero] at hm
    have hp := List.of_mem_filter hm
    exact beq_iff_eq.mp hp
  · rw [List.drop_zero]
    exact (List.take_sublist _ _).trans (List.filter_sublist _)
  · intro d hd
    have hm := (List.take_sublist _ _).subset hd
    rw [List.drop_zero] at hm
    have hp := List.of_mem_filter hm
    exact beq_iff_eq.mp hp

/-- C1 counterexample: on the empty database the two Menu-update
handlers already disagree — the synchronous one falls through with no
response while the asynchronous one raises a structured 404 — so the
claim that all twelve routes behave identically between the variants
(in particular Menu update on an absent `menu_id`) is false. -/
theorem C1_counterexample :
    update_menu "1" ⟨"t", "d"⟩ ⟨[], [], []⟩ ≠
      async_update_menu "1" ⟨"t", "d"⟩ ⟨[], [], []⟩ := by
  decide

/-- C1 (amended): on Menu update and Menu delete the two variants agree
exactly when the target `menu_id` exists (given unique menu ids); when it
is absent they diverge — the synchronous handlers return no response at
all, the asynchronous handlers return a 404 NotFound. -/
theorem C1_amended_menu_update_delete (db : DB) (menu_id : String)
    (d : MenuIn) (hnd : (db.menus.map MenuRow.id).Nodup) :
    (db.menus.find? (fun m => m.id == menu_id) = none →
      update_menu menu_id d db = (Resp.fellThrough, db) ∧
      async_update_menu menu_id d db =
        (Resp.httpError 404 "menu not found", db) ∧
      delete_menu menu_id db = (Resp.fellThrough, db) ∧
      async_delete_menu menu_id db =
        (Resp.httpError 404 "menu not found", db)) ∧
    ((db.menus.find? (fun m => m.id == menu_id)).isSome →
      update_menu menu_id d db = async_update_menu menu_id d db ∧
      delete_menu menu_id db = async_delete_menu menu_id db) := by
  have hs := scalar_eq_find? MenuRow.id menu_id db.menus hnd
  constructor
  · intro hnone
    rw [hnone] at hs
    refine ⟨?_, ?_, ?_, ?_⟩ <;>
      simp [update_menu, async_update_menu, delete_menu, async_delete_menu,
        hnone, hs]
  · intro hsome
    obtain ⟨m, hm⟩ := Option.isSome_iff_exists.mp hsome
    rw [hm] at hs
    constructor <;>
      simp [update_menu, async_update_menu, delete_menu, async_delete_menu,
        hm, hs]

/-- C1 amended, witnessed at a one-menu database: the variants agree on
updating the present menu `"m1"`, and the sync update of the absent
`"m2"` falls through. -/
theorem C1_amended_witness :
    update_menu "m1" ⟨"x", "y"⟩ ⟨[⟨"m1", "t", "d"⟩], [], []⟩ =
      async_update_menu "m1" ⟨"x", "y"⟩ ⟨[⟨"m1", "t", "d"⟩], [], []⟩ ∧
    update_menu "m2" ⟨"x", "y"⟩ ⟨[⟨"m1", "t", "d"⟩], [], []⟩ =
      (Resp.fellThrough, ⟨[⟨"m1", "t", "d"⟩], [], []⟩) :=
  ⟨((C1_amended_menu_update_delete ⟨[⟨"m1", "t", "d"⟩], [], []⟩ "m1"
      ⟨"x", "y"⟩ (by decide)).2 (by decide)).1,
   ((C1_amended_menu_update_delete ⟨[⟨"m1", "t", "d"⟩], [], []⟩ "m2"
      ⟨"x", "y"⟩ (by decide)).1 (by decide)).1⟩

/-- C4: when `menu_id` is absent, Menu update and Menu delete fall
through with no response and the state is untouched; when it is present,
update overwrites title/description of the record, answers 200 with the
updated record and touches no other table, and delete answers 200 with
the empty body and removes the record (given unique menu ids). -/
theorem C4_menu_update_delete_behaviour (db : DB) (menu_id : String)
    (d : MenuIn) (hnd : (db.menus.map MenuRow.id).Nodup) :
    (db.menus.find? (fun m => m.id == menu_id) = none →
      update_menu menu_id d db = (Resp.fellThrough, db) ∧
      delete_menu menu_id db = (Resp.fellThrough, db)) ∧
    (∀ m, db.menus.find? (fun r => r.id == menu_id) = some m →
      (update_menu menu_id d db).1 =
        Resp.ok 200 (Body.menu ⟨m.id, d.title, d.description⟩) ∧
      (update_menu menu_id d db).2.menus.find? (fun r => r.id == menu_id) =
        some ⟨m.id, d.title, d.description⟩ ∧
      (update_menu menu_id d db).2.submenus = db.submenus ∧
      (update_menu menu_id d db).2.dishes = db.dishes ∧
      (delete_menu menu_id db).1 = Resp.ok 200 Body.empty ∧
      (delete_menu menu_id db).2.menus.find? (fun r => r.id == menu_id) =
        none) := by
  constructor
  · intro hnone
    constructor <;> simp [update_menu, delete_menu, hnone]
  · intro m hm
    have h1 : (update_menu menu_id d db).2.menus =
        updateFirst (fun r => r.id == menu_id)
          (fun r => { r with title := d.title, description := d.description })
          db.menus := by
      simp [update_menu, hm]
    have h2 : (delete_menu menu_id db).2.menus =
        db.menus.eraseP (fun r => r.id == menu_id) := by
      simp [delete_menu, hm]
    refine ⟨by simp [update_menu, hm], ?_, by simp [update_menu, hm],
      by simp [update_menu, hm], by simp [delete_menu, hm], ?_⟩
    · rw [h1]
      exact updateFirst_find? (fun r => r.id == menu_id)
        (fun r => { r with title := d.title, description := d.description })
        (fun a => rfl) db.menus m hm
    · rw [h2]
      exact find?_eraseP_key MenuRow.id menu_id db.menus hnd

/-- C4, witnessed: on the empty database both handlers fall through; on
a one-menu database update answers 200 with the overwritten record. -/
theorem C4_witness :
    update_menu "m9" ⟨"x", "y"⟩ ⟨[], [], []⟩ =
      (Resp.fellThrough, ⟨[], [], []⟩) ∧
    (update_menu "m1" ⟨"x", "y"⟩ ⟨[⟨"m1", "t", "d"⟩], [], []⟩).1 =
      Resp.ok 200 (Body.menu ⟨"m1", "x", "y"⟩) :=
  ⟨((C4_menu_update_delete_behaviour ⟨[], [], []⟩ "m9" ⟨"x", "y"⟩
      (by decide)).1 (by decide)).1,
   ((C4_menu_update_delete_behaviour ⟨[⟨"m1", "t", "d"⟩], [], []⟩ "m1"
      ⟨"x", "y"⟩ (by decide)).2 ⟨"m1", "t", "d"⟩ (by decide)).1⟩

/-- C7: deleting a present Menu removes exactly that one row from the
Menu table — the SubMenu and Dish tables come out of the handler exactly
as they went in, in both variants (the async variant agreeing with the
sync one given unique menu ids); no cascading deletion happens in
handler logic. -/
theorem C7_delete_menu_no_cascade (db : DB) (menu_id : String) (m : MenuRow)
    (hm : db.menus.find? (fun r => r.id == menu_id) = some m)
    (hnd : (db.menus.map MenuRow.id).Nodup) :
    ((delete_menu menu_id db).1 = Resp.ok 200 Body.empty ∧
     (delete_menu menu_id db).2.submenus = db.submenus ∧
     (delete_menu menu_id db).2.dishes = db.dishes ∧
     ∃ l1 l2, db.menus = l1 ++ m :: l2 ∧
       (delete_menu menu_id db).2.menus = l1 ++ l2) ∧
    async_delete_menu menu_id db = delete_menu menu_id db := by
  have hs := scalar_eq_find? MenuRow.id menu_id db.menus hnd
  rw [hm] at hs
  obtain ⟨l1, l2, he, hr⟩ :=
    find?_eraseP_decomp (fun r => r.id == menu_id) db.menus m hm
  refine ⟨⟨by simp [delete_menu, hm], by simp [delete_menu, hm],
    by simp [delete_menu, hm], l1, l2, he, by simp [delete_menu, hm, hr]⟩, ?_⟩
  simp [async_delete_menu, delete_menu, hs, hm]

/-- C7, witnessed on a database with one menu, one submenu and one dish:
deleting the menu leaves the submenu and dish tables unchanged. -/
theorem C7_witness :
    (delete_menu "m1"
      ⟨[⟨"m1", "t", "d"⟩], [⟨"s1", "m1", "st", "sd"⟩],
       [⟨"d1", "s1", "dt", "dd", ⟨100, 2⟩⟩]⟩).2.submenus =
      [⟨"s1", "m1", "st", "sd"⟩] ∧
    (delete_menu "m1"
      ⟨[⟨"m1", "t", "d"⟩], [⟨"s1", "m1", "st", "sd"⟩],
       [⟨"d1", "s1", "dt", "dd", ⟨100, 2⟩⟩]⟩).2.dishes =
      [⟨"d1", "s1", "dt", "dd", ⟨100, 2⟩⟩] :=
  ⟨((C7_delete_menu_no_cascade
      ⟨[⟨"m1", "t", "d"⟩], [⟨"s1", "m1", "st", "sd"⟩],
       [⟨"d1", "s1", "dt", "dd", ⟨100, 2⟩⟩]⟩ "m1" ⟨"m1", "t", "d"⟩
      (by decide) (by decide)).1).2.1,
   ((C7_delete_menu_no_cascade
      ⟨[⟨"m1", "t", "d"⟩], [⟨"s1", "m1", "st", "sd"⟩],
       [⟨"d1", "s1", "dt", "dd", ⟨100, 2⟩⟩]⟩ "m1" ⟨"m1", "t", "d"⟩
      (by decide) (by decide)).1).2.2.1⟩

/-- C10: whenever one of the error-capable mutating handlers (the sync
and async SubMenu and Dish creates, and the async Menu update and
delete — every create/update/delete handler of either variant that can
answer NotFound or Conflict at all) answers an `HTTPException`, the
database state it returns is exactly the state it was given — all
checks precede the single mutation. -/
theorem C10_error_leaves_db_unchanged (db : DB)
    (menu_id submenu_id newId : String) (sd : SubMenuIn) (dd : DishIn)
    (md : MenuIn) (c : Nat) (msg : String) :
    ((create_submenu_for_menu menu_id newId sd db).1 = Resp.httpError c msg →
      (create_submenu_for_menu menu_id newId sd db).2 = db) ∧
    ((create_dish_for_submenu menu_id submenu_id newId dd db).1 =
        Resp.httpError c msg →
      (create_dish_for_submenu menu_id submenu_id newId dd db).2 = db) ∧
    ((async_create_submenu_for_menu menu_id newId sd db).1 =
        Resp.httpError c msg →
      (async_create_submenu_for_menu menu_id newId sd db).2 = db) ∧
    ((async_create_dish_for_submenu menu_id submenu_id newId dd db).1 =
        Resp.httpError c msg →
      (async_create_dish_for_submenu menu_id submenu_id newId dd db).2 =
        db) ∧
    ((async_update_menu menu_id md db).1 = Resp.httpError c msg →
      (async_update_menu menu_id md db).2 = db) ∧
    ((async_delete_menu menu_id db).1 = Resp.httpError c msg →
      (async_delete_menu menu_id db).2 = db) := by
  refine ⟨?_, ?_, ?_, ?_, ?_, ?_⟩
  · intro h
    cases h1 : db.menus.find? (fun m => m.id == menu_id) with
    | none => simp [create_submenu_for_menu, h1]
    | some _ =>
      cases h2 : db.submenus.find?
          (fun s => s.menu_id != menu_id && s.title == sd.title) with
      | none => simp [create_submenu_for_menu, h1, h2] at h
      | some _ => simp [create_submenu_for_menu, h1, h2]
  · intro h
    cases h1 : db.submenus.find?
        (fun s => s.menu_id == menu_id && s.id == submenu_id) with
    | none => simp [create_dish_for_submenu, h1]
    | some _ =>
      cases h2 : db.dishes.find?
          (fun x => x.submenu_id != submenu_id && x.title == dd.title) with
      | none => simp [create_dish_for_submenu, h1, h2] at h
      | some _ => simp [create_dish_for_submenu, h1, h2]
  · intro h
    cases h1 : scalar_one_or_none (fun m => m.id == menu_id) db.menus with
    | none => simp [async_create_submenu_for_menu, h1] at h
    | some o =>
      cases o with
      | none => simp [async_create_submenu_for_menu, h1]
      | some _ =>
        cases h2 : scalar_one_or_none
            (fun s => s.menu_id != menu_id && s.title == sd.title)
            db.submenus with
        | none => simp [async_create_submenu_for_menu, h1, h2] at h
        | some o2 =>
          cases o2 with
          | none => simp [async_create_submenu_for_menu, h1, h2] at h
          | some _ => simp [async_create_submenu_for_menu, h1, h2]
  · intro h
    cases h1 : scalar_one_or_none
        (fun s => s.menu_id == menu_id && s.id == submenu_id)
        db.submenus with
    | none => simp [async_create_dish_for_submenu, h1] at h
    | some o =>
      cases o with
      | none => simp [async_create_dish_for_submenu, h1]
      | some _ =>
        cases h2 : scalar_one_or_none
            (fun x => x.submenu_id != submenu_id && x.title == dd.title)
            db.dishes with
        | none => simp [async_create_dish_for_submenu, h1, h2] at h
        | some o2 =>
          cases o2 with
          | none => simp [async_create_dish_for_submenu, h1, h2] at h
          | some _ => simp [async_create_dish_for_submenu, h1, h2]
  · intro h
    cases h1 : scalar_one_or_none (fun m => m.id == menu_id) db.menus with
    | none => simp [async_update_menu, h1] at h
    | some o =>
      cases o with
      | none => simp [async_update_menu, h1]
      | some _ => simp [async_update_menu, h1] at h
  · intro h
    cases h1 : scalar_one_or_none (fun m => m.id == menu_id) db.menus with
    | none => simp [async_delete_menu, h1] at h
    | some o =>
      cases o with
      | none => simp [async_delete_menu, h1]
      | some _ => simp [async_delete_menu, h1] at h

/-- C10, witnessed: six concrete error responses (404s and a 400) each
leave the database exactly as given. -/
theorem C10_witness :
    (create_submenu_for_menu "m" "s1" ⟨"t", "de"⟩ ⟨[], [], []⟩).2 =
      ⟨[], [], []⟩ ∧
    (create_dish_for_submenu "m" "sm" "d1" ⟨"t", "de", ⟨100, 2⟩⟩
      ⟨[], [], []⟩).2 = ⟨[], [], []⟩ ∧
    (async_create_submenu_for_menu "m" "s1" ⟨"t", "de"⟩
      ⟨[⟨"m", "t", "d"⟩], [⟨"s0", "other", "t", "x"⟩], []⟩).2 =
      ⟨[⟨"m", "t", "d"⟩], [⟨"s0", "other", "t", "x"⟩], []⟩ ∧
    (async_create_dish_for_submenu "m" "sm" "d1" ⟨"t", "de", ⟨100, 2⟩⟩
      ⟨[], [], []⟩).2 = ⟨[], [], []⟩ ∧
    (async_update_menu "m" ⟨"t", "de"⟩ ⟨[], [], []⟩).2 = ⟨[], [], []⟩ ∧
    (async_delete_menu "m" ⟨[], [], []⟩).2 = ⟨[], [], []⟩ :=
  ⟨(C10_error_leaves_db_unchanged ⟨[], [], []⟩ "m" "sm" "s1" ⟨"t", "de"⟩
      ⟨"t", "de", ⟨100, 2⟩⟩ ⟨"t", "de"⟩ 404 "menu not found").1 (by decide),
   (C10_error_leaves_db_unchanged ⟨[], [], []⟩ "m" "sm" "d1" ⟨"t", "de"⟩
      ⟨"t", "de", ⟨100, 2⟩⟩ ⟨"t", "de"⟩ 404 "Submenu not found").2.1
     (by decide),
   (C10_error_leaves_db_unchanged
      ⟨[⟨"m", "t", "d"⟩], [⟨"s0", "other", "t", "x"⟩], []⟩ "m" "sm" "s1"
      ⟨"t", "de"⟩ ⟨"t", "de", ⟨100, 2⟩⟩ ⟨"t", "de"⟩ 400
      "Submenu already belongs to ather menu").2.2.1 (by decide),
   (C10_error_leaves_db_unchanged ⟨[], [], []⟩ "m" "sm" "d1" ⟨"t", "de"⟩
      ⟨"t", "de", ⟨100, 2⟩⟩ ⟨"t", "de"⟩ 404 "Submenu not found").2.2.2.1
     (by decide),
   (C10_error_leaves_db_unchanged ⟨[], [], []⟩ "m" "sm" "s1" ⟨"t", "de"⟩
      ⟨"t", "de", ⟨100, 2⟩⟩ ⟨"t", "de"⟩ 404 "menu not found").2.2.2.2.1
     (by decide),
   (C10_error_leaves_db_unchanged ⟨[], [], []⟩ "m" "sm" "s1" ⟨"t", "de"⟩
      ⟨"t", "de", ⟨100, 2⟩⟩ ⟨"t", "de"⟩ 404 "menu not found").2.2.2.2.2
     (by decide)⟩

/-- C2: SubMenu create answers 404 NotFound when the parent menu is
absent; given a present menu it answers 400 Conflict exactly when some
existing SubMenu carries the same title under a *different* `menu_id`;
and two same-title creations under the *same* menu both succeed (no
same-scope uniqueness). -/
theorem C2_submenu_create_checks (db : DB) (menu_id newId1 newId2 : String)
    (d : SubMenuIn) :
    (db.menus.find? (fun m => m.id == menu_id) = none →
      create_submenu_for_menu menu_id newId1 d db =
        (Resp.httpError 404 "menu not found", db)) ∧
    ((db.menus.find? (fun m => m.id == menu_id)).isSome →
      (((create_submenu_for_menu menu_id newId1 d db).1 =
          Resp.httpError 400 "Submenu already belongs to ather menu") ↔
        ∃ s ∈ db.submenus, s.menu_id ≠ menu_id ∧ s.title = d.title)) ∧
    ((db.menus.find? (fun m => m.id == menu_id)).isSome →
      (∀ s ∈ db.submenus, ¬(s.menu_id ≠ menu_id ∧ s.title = d.title)) →
      (create_submenu_for_menu menu_id newId1 d db).1 =
        Resp.ok 201 (Body.submenu ⟨newId1, d.title, d.description⟩) ∧
      (create_submenu_for_menu menu_id newId2 d
        (create_submenu_for_menu menu_id newId1 d db).2).1 =
        Resp.ok 201 (Body.submenu ⟨newId2, d.title, d.description⟩)) := by
  refine ⟨?_, ?_, ?_⟩
  · intro hnone
    simp [create_submenu_for_menu, hnone]
  · intro hsome
    obtain ⟨m, hm⟩ := Option.isSome_iff_exists.mp hsome
    cases h2 : db.submenus.find?
        (fun s => s.menu_id != menu_id && s.title == d.title) with
    | none =>
      constructor
      · intro h
        simp [create_submenu_for_menu, hm, h2] at h
      · rintro ⟨s, hsmem, hne, hti⟩
        have hp := List.find?_eq_none.mp h2 s hsmem
        rw [Bool.and_eq_true, bne_iff_ne, beq_iff_eq] at hp
        exact (hp ⟨hne, hti⟩).elim
    | some s =>
      constructor
      · intro _
        have hps := List.find?_some h2
        have hms := List.mem_of_find?_eq_some h2
        rw [Bool.and_eq_true, bne_iff_ne, beq_iff_eq] at hps
        exact ⟨s, hms, hps.1, hps.2⟩
      · intro _
        simp [create_submenu_for_menu, hm, h2]
  · intro hsome hno
    obtain ⟨m, hm⟩ := Option.isSome_iff_exists.mp hsome
    have h2 : db.submenus.find?
        (fun s => s.menu_id != menu_id && s.title == d.title) = none := by
      rw [List.find?_eq_none]
      intro s hsmem hp
      rw [Bool.and_eq_true, bne_iff_ne, beq_iff_eq] at hp
      exact hno s hsmem hp
    have hdb1 : (create_submenu_for_menu menu_id newId1 d db).2 =
        { db with submenus := db.submenus ++
            [⟨newId1, menu_id, d.title, d.description⟩] } := by
      simp [create_submenu_for_menu, hm, h2]
    refine ⟨by simp [create_submenu_for_menu, hm, h2], ?_⟩
    rw [hdb1]
    have h2' : (db.submenus ++
        [(⟨newId1, menu_id, d.title, d.description⟩ : SubMenuRow)]).find?
          (fun s => s.menu_id != menu_id && s.title == d.title) = none := by
      rw [List.find?_eq_none]
      intro s hsmem hp
      rw [Bool.and_eq_true, bne_iff_ne, beq_iff_eq] at hp
      rw [List.mem_append] at hsmem
      cases hsmem with
      | inl hin => exact hno s hin hp
      | inr hin =>
        rw [List.mem_singleton] at hin
        subst hin
        exact hp.1 rfl
    simp [create_submenu_for_menu, hm, h2']

/-- C2, witnessed: under a single menu, two SubMenus titled `"T"` are both
created with 201. -/
theorem C2_witness :
    (create_submenu_for_menu "m1" "s1" ⟨"T", "D"⟩
      ⟨[⟨"m1", "t", "d"⟩], [], []⟩).1 =
      Resp.ok 201 (Body.submenu ⟨"s1", "T", "D"⟩) ∧
    (create_submenu_for_menu "m1" "s2" ⟨"T", "D"⟩
      (create_submenu_for_menu "m1" "s1" ⟨"T", "D"⟩
        ⟨[⟨"m1", "t", "d"⟩], [], []⟩).2).1 =
      Resp.ok 201 (Body.submenu ⟨"s2", "T", "D"⟩) :=
  (C2_submenu_create_checks ⟨[⟨"m1", "t", "d"⟩], [], []⟩ "m1" "s1" "s2"
    ⟨"T", "D"⟩).2.2 (by decide) (by decide)

/-- C6: Dish create answers 404 NotFound when no SubMenu row matches both
`menu_id` and `submenu_id`; given a match it answers 400 Conflict exactly
when some existing Dish carries the same title under a different
`submenu_id`; if both checks pass, a new Dish row bound to `submenu_id`
is appended. -/
theorem C6_dish_create_checks (db : DB) (menu_id submenu_id newId : String)
    (dd : DishIn) :
    (db.submenus.find?
        (fun s => s.menu_id == menu_id && s.id == submenu_id) = none →
      create_dish_for_submenu menu_id submenu_id newId dd db =
        (Resp.httpError 404 "Submenu not found", db)) ∧
    ((db.submenus.find?
        (fun s => s.menu_id == menu_id && s.id == submenu_id)).isSome →
      (((create_dish_for_submenu menu_id submenu_id newId dd db).1 =
          Resp.httpError 400 "Dish already belongs to ather submenu") ↔
        ∃ x ∈ db.dishes, x.submenu_id ≠ submenu_id ∧ x.title = dd.title)) ∧
    ((db.submenus.find?
        (fun s => s.menu_id == menu_id && s.id == submenu_id)).isSome →
      (∀ x ∈ db.dishes, ¬(x.submenu_id ≠ submenu_id ∧ x.title = dd.title)) →
      create_dish_for_submenu menu_id submenu_id newId dd db =
        (Resp.ok 201 (Body.dish ⟨newId, dd.title, dd.description,
          (Dec.round2 dd.price).str⟩),
         { db with dishes := db.dishes ++
            [⟨newId, submenu_id, dd.title, dd.description, dd.price⟩] })) := by
  refine ⟨?_, ?_, ?_⟩
  · intro hnone
    simp [create_dish_for_submenu, hnone]
  · intro hsome
    obtain ⟨s, hs⟩ := Option.isSome_iff_exists.mp hsome
    cases h2 : db.dishes.find?
        (fun x => x.submenu_id != submenu_id && x.title == dd.title) with
    | none =>
      constructor
      · intro h
        simp [create_dish_for_submenu, hs, h2] at h
      · rintro ⟨x, hxmem, hne, hti⟩
        have hp := List.find?_eq_none.mp h2 x hxmem
        rw [Bool.and_eq_true, bne_iff_ne, beq_iff_eq] at hp
        exact (hp ⟨hne, hti⟩).elim
    | some x =>
      constructor
      · intro _
        have hps := List.find?_some h2
        have hms := List.mem_of_find?_eq_some h2
        rw [Bool.and_eq_true, bne_iff_ne, beq_iff_eq] at hps
        exact ⟨x, hms, hps.1, hps.2⟩
      · intro _
        simp [create_dish_for_submenu, hs, h2]
  · intro hsome hno
    obtain ⟨s, hs⟩ := Option.isSome_iff_exists.mp hsome
    have h2 : db.dishes.find?
        (fun x => x.submenu_id != submenu_id && x.title == dd.title) =
          none := by
      rw [List.find?_eq_none]
      intro x hxmem hp
      rw [Bool.and_eq_true, bne_iff_ne, beq_iff_eq] at hp
      exact hno x hxmem hp
    simp [create_dish_for_submenu, hs, h2]

/-- C6, witnessed: with the submenu present and an empty Dish table the
create succeeds and appends the dish row bound to `"s1"`. -/
theorem C6_witness :
    create_dish_for_submenu "m1" "s1" "d1" ⟨"T", "D", ⟨999, 2⟩⟩
      ⟨[⟨"m1", "t", "d"⟩], [⟨"s1", "m1", "st", "sd"⟩], []⟩ =
      (Resp.ok 201 (Body.dish ⟨"d1", "T", "D", (Dec.round2 ⟨999, 2⟩).str⟩),
       ⟨[⟨"m1", "t", "d"⟩], [⟨"s1", "m1", "st", "sd"⟩],
        [⟨"d1", "s1", "T", "D", ⟨999, 2⟩⟩]⟩) :=
  (C6_dish_create_checks
    ⟨[⟨"m1", "t", "d"⟩], [⟨"s1", "m1", "st", "sd"⟩], []⟩ "m1" "s1" "d1"
    ⟨"T", "D", ⟨999, 2⟩⟩).2.2 (by decide) (by decide)

/-- C3: the Dish create response echoes the stored price rounded to two
decimals (19.999 becomes "20.00"), list and read-one responses round to
two decimals as well, but the Dish update response echoes the price
unrounded (19.999 stays "19.999"). -/
theorem C3_price_rounding_asymmetry (db : DB)
    (menu_id submenu_id dish_id newId : String) (skip limit : Nat)
    (inp : DishIn) :
    ((db.submenus.find?
        (fun s => s.menu_id == menu_id && s.id == submenu_id)).isSome →
      (∀ x ∈ db.dishes, ¬(x.submenu_id ≠ submenu_id ∧ x.title = inp.title)) →
      (create_dish_for_submenu menu_id submenu_id newId inp db).1 =
        Resp.ok 201 (Body.dish ⟨newId, inp.title, inp.description,
          (Dec.round2 inp.price).str⟩)) ∧
    ((read_dish_for_submenu menu_id submenu_id skip limit db).1 =
      Resp.ok 200 (Body.dishList
        ((((db.dishes.filter
            (fun (x : DishRow) => x.submenu_id == submenu_id)).drop
              skip).take limit).map (fun x =>
          ⟨x.id, x.title, x.description, (Dec.round2 x.price).str⟩)))) ∧
    (∀ r, db.dishes.find?
        (fun x => x.id == dish_id && x.submenu_id == submenu_id) = some r →
      (read_one_dish_for_submenu menu_id submenu_id dish_id db).1 =
        Resp.ok 200 (Body.dish ⟨r.id, r.title, r.description,
          (Dec.round2 r.price).str⟩)) ∧
    (∀ r, db.dishes.find?
        (fun x => x.submenu_id == submenu_id && x.id == dish_id) = some r →
      (update_dish menu_id submenu_id dish_id inp db).1 =
        Resp.ok 200 (Body.dish ⟨r.id, inp.title, inp.description,
          inp.price.str⟩)) ∧
    (Dec.round2 ⟨19999, 3⟩).str = "20.00" ∧
    Dec.str ⟨19999, 3⟩ = "19.999" := by
  refine ⟨?_, by simp [read_dish_for_submenu], ?_, ?_, by decide, by decide⟩
  · intro hsome hno
    obtain ⟨s, hs⟩ := Option.isSome_iff_exists.mp hsome
    have h2 : db.dishes.find?
        (fun x => x.submenu_id != submenu_id && x.title == inp.title) =
          none := by
      rw [List.find?_eq_none]
      intro x hxmem hp
      rw [Bool.and_eq_true, bne_iff_ne, beq_iff_eq] at hp
      exact hno x hxmem hp
    simp [create_dish_for_submenu, hs, h2]
  · intro r hr
    simp [read_one_dish_for_submenu, hr]
  · intro r hr
    simp [update_dish, hr]

/-- C3, witnessed: creating a dish priced 19.999 echoes "20.00"; updating
a dish to price 19.999 echoes "19.999". -/
theorem C3_witness :
    (create_dish_for_submenu "m1" "s1" "d1" ⟨"T", "D", ⟨19999, 3⟩⟩
      ⟨[⟨"m1", "t", "d"⟩], [⟨"s1", "m1", "st", "sd"⟩], []⟩).1 =
      Resp.ok 201 (Body.dish ⟨"d1", "T", "D", "20.00"⟩) ∧
    (update_dish "m1" "s1" "d1" ⟨"T", "D", ⟨19999, 3⟩⟩
      ⟨[⟨"m1", "t", "d"⟩], [⟨"s1", "m1", "st", "sd"⟩],
       [⟨"d1", "s1", "dt", "dd", ⟨500, 2⟩⟩]⟩).1 =
      Resp.ok 200 (Body.dish ⟨"d1", "T", "D", "19.999"⟩) :=
  ⟨(C3_price_rounding_asymmetry
      ⟨[⟨"m1", "t", "d"⟩], [⟨"s1", "m1", "st", "sd"⟩], []⟩ "m1" "s1" "dX"
      "d1" 0 10 ⟨"T", "D", ⟨19999, 3⟩⟩).1 (by decide) (by decide),
   (C3_price_rounding_asymmetry
      ⟨[⟨"m1", "t", "d"⟩], [⟨"s1", "m1", "st", "sd"⟩],
       [⟨"d1", "s1", "dt", "dd", ⟨500, 2⟩⟩]⟩ "m1" "s1" "d1" "dY" 0 10
      ⟨"T", "D", ⟨19999, 3⟩⟩).2.2.2.1 ⟨"d1", "s1", "dt", "dd", ⟨500, 2⟩⟩
      (by decide)⟩

/-- C5: aggregate counts are computed at read time — a freshly created
Menu reads back with `submenus_count = 0` and `dishes_count = 0`; after
creating N Dishes under a SubMenu (that had no dishes, with titles free
of cross-scope conflicts), reading that SubMenu yields
`dishes_count = N`, and reading its parent Menu yields a
`dishes_count ≥ N`. -/
theorem C5_aggregate_counts (db : DB) (newMenuId menu_id : String)
    (mdata : MenuIn) (sm : SubMenuRow) (inputs : List (String × DishIn))
    (hfreshm : ∀ m ∈ db.menus, m.id ≠ newMenuId)
    (hnosub : ∀ s ∈ db.submenus, s.menu_id ≠ newMenuId)
    (hsm : db.submenus.find?
      (fun s => s.menu_id == menu_id && s.id == sm.id) = some sm)
    (hzero : dishesCountOf db sm.id = 0)
    (hnc : ∀ i ∈ inputs, ∀ x ∈ db.dishes,
      ¬(x.submenu_id ≠ sm.id ∧ x.title = i.2.title)) :
    ((read_one_menu newMenuId (create_menu newMenuId mdata db).2).1 =
      Resp.ok 200 (Body.menuFull
        ⟨newMenuId, mdata.title, mdata.description, 0, 0⟩)) ∧
    ((read_one_submenu_for_menu menu_id sm.id
        (create_dishes menu_id sm.id inputs db)).1 =
      Resp.ok 200 (Body.submenuFull
        ⟨sm.id, sm.title, sm.description, (inputs.length : Int)⟩)) ∧
    (∀ mrow, db.menus.find? (fun m => m.id == menu_id) = some mrow →
      ∃ c : Nat, inputs.length ≤ c ∧
        (read_one_menu menu_id (create_dishes menu_id sm.id inputs db)).1 =
          Resp.ok 200 (Body.menuFull
            ⟨mrow.id, mrow.title, mrow.description,
             (submenusCount db menu_id : Int), (c : Int)⟩)) := by
  have hsm' : (db.submenus.find?
      (fun s => s.menu_id == menu_id && s.id == sm.id)).isSome := by
    rw [hsm]; rfl
  have hstate := create_dishes_state menu_id sm.id inputs db hsm' hnc
  refine ⟨?_, ?_, ?_⟩
  · have hnone : db.menus.find? (fun m => m.id == newMenuId) = none := by
      rw [List.find?_eq_none]
      intro m hm hp
      exact hfreshm m hm (beq_iff_eq.mp hp)
    have hnew : ((db.menus ++
        [(⟨newMenuId, mdata.title, mdata.description⟩ : MenuRow)]).find?
          (fun m => m.id == newMenuId)) =
        some ⟨newMenuId, mdata.title, mdata.description⟩ := by
      rw [List.find?_append, hnone]
      simp
    have hs0 : db.submenus.filter (fun s => s.menu_id == newMenuId) = [] := by
      rw [List.filter_eq_nil_iff]
      intro s hs hp
      exact hnosub s hs (beq_iff_eq.mp hp)
    have hj0 : dishesJoinCount { db with menus := db.menus ++
        [⟨newMenuId, mdata.title, mdata.description⟩] } newMenuId = 0 := by
      unfold dishesJoinCount
      apply List.sum_eq_zero
      intro x hx
      rw [List.mem_map] at hx
      obtain ⟨d, hd, rfl⟩ := hx
      have hf : db.submenus.filter
          (fun s => d.submenu_id == s.id && s.menu_id == newMenuId) = [] := by
        rw [List.filter_eq_nil_iff]
        intro s hs hp
        rw [Bool.and_eq_true, beq_iff_eq, beq_iff_eq] at hp
        exact hnosub s hs hp.2
      simp [hf]
    simp [create_menu, read_one_menu, hnew, submenusCount, hs0,
      dishesSumCount, hj0]
  · have hfilter : (inputs.map (fun i =>
        (⟨i.1, sm.id, i.2.title, i.2.description, i.2.price⟩ :
          DishRow))).filter (fun x => x.submenu_id == sm.id) =
        inputs.map (fun i =>
          ⟨i.1, sm.id, i.2.title, i.2.description, i.2.price⟩) := by
      rw [List.filter_eq_self]
      intro x hx
      obtain ⟨i, hi, rfl⟩ := List.mem_map.mp hx
      exact beq_self_eq_true _
    have key2 : ((db.dishes ++ inputs.map (fun i => (⟨i.1, sm.id, i.2.title,
        i.2.description, i.2.price⟩ : DishRow))).filter
          (fun d => d.submenu_id == sm.id)).length = inputs.length := by
      rw [List.filter_append, hfilter, List.length_append]
      unfold dishesCountOf at hzero
      rw [hzero, List.length_map]
      omega
    have hcnt : dishesCountOf (create_dishes menu_id sm.id inputs db) sm.id =
        inputs.length := by
      rw [hstate]
      exact key2
    have hsub : (create_dishes menu_id sm.id inputs db).submenus.find?
        (fun s => s.menu_id == menu_id && s.id == sm.id) = some sm := by
      rw [hstate]
      exact hsm
    simp [read_one_submenu_for_menu, hsub, hcnt]
  · intro mrow hmrow
    have hmem := List.mem_of_find?_eq_some hsm
    have hps := List.find?_some hsm
    rw [Bool.and_eq_true, beq_iff_eq, beq_iff_eq] at hps
    refine ⟨dishesJoinCount (create_dishes menu_id sm.id inputs db) menu_id,
      ?_, ?_⟩
    · rw [hstate]
      have hone : ∀ d ∈ inputs.map (fun i =>
          (⟨i.1, sm.id, i.2.title, i.2.description, i.2.price⟩ : DishRow)),
          1 ≤ (db.submenus.filter
            (fun s => d.submenu_id == s.id && s.menu_id == menu_id)).length :=
        by
        intro d hd
        obtain ⟨i, hi, rfl⟩ := List.mem_map.mp hd
        have hin : sm ∈ db.submenus.filter (fun s =>
            ((⟨i.1, sm.id, i.2.title, i.2.description, i.2.price⟩ :
              DishRow)).submenu_id == s.id && s.menu_id == menu_id) := by
          rw [List.mem_filter]
          refine ⟨hmem, ?_⟩
          rw [Bool.and_eq_true, beq_iff_eq, beq_iff_eq]
          exact ⟨rfl, hps.1⟩
        exact List.length_pos_of_mem hin
      have key : inputs.length ≤ ((db.dishes ++ inputs.map (fun i =>
          (⟨i.1, sm.id, i.2.title, i.2.description, i.2.price⟩ :
            DishRow))).map (fun d => (db.submenus.filter
              (fun s => d.submenu_id == s.id &&
                s.menu_id == menu_id)).length)).sum := by
        rw [List.map_append, List.sum_append]
        have hle := length_le_sum_map (fun (d : DishRow) =>
          (db.submenus.filter
            (fun s => d.submenu_id == s.id && s.menu_id == menu_id)).length)
          (inputs.map (fun i =>
            (⟨i.1, sm.id, i.2.title, i.2.description, i.2.price⟩ : DishRow)))
          hone
        rw [List.length_map] at hle
        exact le_trans hle (Nat.le_add_left _ _)
      exact key
    · simp [read_one_menu, hstate, hmrow, dishesSumCount, submenusCount]

/-- C5, witnessed: a fresh menu `"m2"` reads back with both counts 0,
and after creating one dish under submenu `"s1"` that submenu reads back
with `dishes_count = 1`. -/
theorem C5_witness :
    (read_one_menu "m2" (create_menu "m2" ⟨"mt", "md"⟩
      ⟨[⟨"m1", "t", "d"⟩], [⟨"s1", "m1", "st", "sd"⟩], []⟩).2).1 =
      Resp.ok 200 (Body.menuFull ⟨"m2", "mt", "md", 0, 0⟩) ∧
    (read_one_submenu_for_menu "m1" "s1" (create_dishes "m1" "s1"
      [("d1", ⟨"T", "D", ⟨500, 2⟩⟩)]
      ⟨[⟨"m1", "t", "d"⟩], [⟨"s1", "m1", "st", "sd"⟩], []⟩)).1 =
      Resp.ok 200 (Body.submenuFull ⟨"s1", "st", "sd", 1⟩) :=
  ⟨(C5_aggregate_counts ⟨[⟨"m1", "t", "d"⟩], [⟨"s1", "m1", "st", "sd"⟩], []⟩
      "m2" "m1" ⟨"mt", "md"⟩ ⟨"s1", "m1", "st", "sd"⟩
      [("d1", ⟨"T", "D", ⟨500, 2⟩⟩)] (by decide) (by decide) (by decide)
      (by decide) (by decide)).1,
   (C5_aggregate_counts ⟨[⟨"m1", "t", "d"⟩], [⟨"s1", "m1", "st", "sd"⟩], []⟩
      "m2" "m1" ⟨"mt", "md"⟩ ⟨"s1", "m1", "st", "sd"⟩
      [("d1", ⟨"T", "D", ⟨500, 2⟩⟩)] (by decide) (by decide) (by decide)
      (by decide) (by decide)).2.1⟩

end RestApi
